import Mathlib

/-!
Verification of the wallet-configuration resolver in
`src/refiner/utils/config.py` (vana-refinement-service).

The module under study has three operations:
* `_read_keystore(path)`: resolve the path, read a JSON keystore file and
  return `(privateKey, address)`;
* `add_args(parser)`: register the `--node.environment` and
  `--wallet.keystore` options with environment-derived defaults;
* `default_config()`: parse, then resolve wallet credentials with a
  three-branch precedence (keystore / mnemonic / fallback) and finally fill
  `wallet.path`, `wallet.coldkey`, `wallet.hotkey` from environment
  variables with hardcoded fallbacks.

The embedding below passes the ambient effects explicitly:
* `fs : String → Option Json` models the file system restricted to this
  module's use: `fs p = some j` when `p` is the resolved path of an existing
  regular file whose contents parse (by `json.loads`) to the JSON value `j`,
  and `none` when `Path(p).is_file()` is false.
* `resolve : String → String` models `Path(os.path.expanduser(path)).resolve()`.
* `env : String → Option String` models `os.getenv` (`none` = variable absent).
* `home : String` is the home directory used by `os.path.expanduser`.
-/

namespace VanaRefiner

/-- JSON values as produced by `json.loads`: object, array, string, number,
boolean, null.  Numbers are modelled as integers since no claim involves
numeric contents. -/
inductive Json where
  | obj  : List (String × Json) → Json
  | arr  : List Json → Json
  | str  : String → Json
  | num  : Int → Json
  | bool : Bool → Json
  | null : Json

/-- First-match lookup in a parsed JSON object, the model of Python
`dict` access (`json.loads` of an object yields a dict with unique keys). -/
def lookupKey (kvs : List (String × Json)) (k : String) : Option Json :=
  match kvs with
  | [] => none
  | (k2, v) :: rest => if k2 == k then some v else lookupKey rest k

/-- The exceptions `_read_keystore` can raise:
* `fileNotFound p` models `FileNotFoundError(f"Keystore file {p} not found")`;
* `valueError p` models `ValueError(f"privateKey missing in {p}")`,
  raised from the caught `KeyError`;
* `typeError` models the `TypeError` raised by `data["privateKey"]` when
  `data` is not a dict — it is not caught by the `except KeyError` clause. -/
inductive KSErr where
  | fileNotFound (path : String)
  | valueError (path : String)
  | typeError

/-- `_read_keystore(path)` from `config.py`:
resolve the path; raise `FileNotFoundError` if it is not an existing file;
parse the contents as JSON; return `(data["privateKey"],
data.get("address", "unknown"))`, converting a `KeyError` on the subscript
into a `ValueError`.  A subscript on a non-dict raises `TypeError`, which
the `except KeyError` clause does not catch. -/
def _read_keystore (fs : String → Option Json) (resolve : String → String)
    (path : String) : Except KSErr (Json × Json) :=
  let ks_path := resolve path
  match fs ks_path with
  | none => .error (.fileNotFound ks_path)
  | some data =>
    match data with
    | .obj kvs =>
      match lookupKey kvs "privateKey" with
      | some pk => .ok (pk, (lookupKey kvs "address").getD (.str "unknown"))
      | none => .error (.valueError ks_path)
    | _ => .error .typeError

/-- Python truthiness of an optional string: `None` and `""` are falsy,
every other string is truthy.  This is the test applied by
`if keystore_path:` and `elif getattr(cfg.wallet, "mnemonic", None):`. -/
def truthy : Option String → Bool
  | none => false
  | some s => s != ""

/-- The wallet namespace of the configuration object (`cfg.wallet`).
Each field is `Option`-valued: `none` models the attribute being absent or
set to Python `None` — the two are indistinguishable to every read the
module performs (`getattr(…, name, None)`). -/
structure WalletCfg where
  keystore : Option String
  mnemonic : Option String
  private_key : Option Json
  path : Option String
  coldkey : Option String
  hotkey : Option String

/-- The three `vana.logging.info` calls of the precedence block, with their
dynamic parts. -/
inductive LogMsg where
  | usingKeystore (path : String) (addr : Json)
  | usingMnemonic
  | fallbackDefault

/-- Which arm of the `if / elif / else` precedence block ran. -/
inductive Branch where
  | keystore
  | mnemonic
  | fallback
deriving DecidableEq

/-- `os.path.expanduser` for the paths this module passes it: a leading
bare `~` component is replaced by the home directory, any other path is
returned unchanged (the `~user` form does not occur in this module). -/
def expanduser (home : String) (p : String) : String :=
  match p.data with
  | '~' :: [] => home
  | '~' :: '/' :: rest => home ++ String.mk ('/' :: rest)
  | _ => p

/-- The default-filling block of `default_config` (the code after the
precedence block): set `wallet.path`, `wallet.coldkey`, `wallet.hotkey`
from `VANA_WALLET_PATH` / `VANA_COLDKEY_NAME` / `VANA_HOTKEY_NAME` with
fallbacks `os.path.expanduser("~/.vana/wallets/refiner")`, `"refiner"`,
`"refiner"`.  The source's `if hasattr(…): assign else: setattr(…)`
branches both assign, so the model assigns unconditionally. -/
def fillWalletDefaults (env : String → Option String) (home : String)
    (cfg : WalletCfg) : WalletCfg :=
  let wallet_path := (env "VANA_WALLET_PATH").getD (expanduser home "~/.vana/wallets/refiner")
  let coldkey_name := (env "VANA_COLDKEY_NAME").getD "refiner"
  let hotkey_name := (env "VANA_HOTKEY_NAME").getD "refiner"
  { cfg with path := some wallet_path, coldkey := some coldkey_name,
             hotkey := some hotkey_name }

/-- Result of running `default_config` from the point where `vana.Config`
has produced the parsed configuration `cfg0`: the final configuration, the
log messages emitted, which precedence branch was entered, and the
exception (if any) that propagated — when `err = some e` the function
raised before reaching the default-filling block, and `cfg` is the state
of the configuration object at the moment of the raise. -/
structure RunResult where
  cfg : WalletCfg
  logs : List LogMsg
  branch : Branch
  err : Option KSErr

/-- The body of `default_config` after parsing (`cfg0` plays the role of the
freshly parsed `vana.Config(parser)` value):
1. if `cfg.wallet.keystore` is truthy, read the keystore, set
   `cfg.wallet.private_key`, set `cfg.wallet.mnemonic = None`, log;
2. elif `cfg.wallet.mnemonic` is truthy, only log;
3. else only log;
then fill the wallet path/coldkey/hotkey defaults. -/
def default_config (fs : String → Option Json) (resolve : String → String)
    (env : String → Option String) (home : String) (cfg0 : WalletCfg) :
    RunResult :=
  let keystore_path := cfg0.keystore
  if truthy keystore_path then
    match _read_keystore fs resolve (keystore_path.getD "") with
    | .error e =>
      { cfg := cfg0, logs := [], branch := .keystore, err := some e }
    | .ok (priv, addr) =>
      let cfg1 := { cfg0 with private_key := some priv, mnemonic := none }
      { cfg := fillWalletDefaults env home cfg1,
        logs := [.usingKeystore (keystore_path.getD "") addr],
        branch := .keystore, err := none }
  else if truthy cfg0.mnemonic then
    { cfg := fillWalletDefaults env home cfg0, logs := [.usingMnemonic],
      branch := .mnemonic, err := none }
  else
    { cfg := fillWalletDefaults env home cfg0, logs := [.fallbackDefault],
      branch := .fallback, err := none }

/-- One `parser.add_argument` registration: the option name and its
`default=` keyword value (`none` models a `None` default). -/
structure ArgDecl where
  name : String
  default : Option String

/-- `add_args(cls, parser)`: registers `--node.environment` with default
`os.getenv("ENVIRONMENT", "production")` and `--wallet.keystore` with
default `os.getenv("HOTKEY_KEYSTORE")`. -/
def add_args (env : String → Option String) : List ArgDecl :=
  [ { name := "--node.environment",
      default := some ((env "ENVIRONMENT").getD "production") },
    { name := "--wallet.keystore",
      default := env "HOTKEY_KEYSTORE" } ]

/-- Whether a JSON value is an object (a Python dict after `json.loads`). -/
def isObj : Json → Bool
  | .obj _ => true
  | _ => false

/-- C5: for every keystore path that does not resolve (after user expansion
and absolutization) to an existing regular file, `_read_keystore` fails with
`FileNotFoundError`, which propagates to the caller. -/
theorem keystore_not_found (fs : String → Option Json)
    (resolve : String → String) (path : String)
    (h : fs (resolve path) = none) :
    _read_keystore fs resolve path = .error (.fileNotFound (resolve path)) := by
  simp [_read_keystore, h]

theorem keystore_not_found_witness :
    (fun _ : String => (none : Option Json)) ((fun s : String => s) "/missing.json") = none ∧
    _read_keystore (fun _ => none) (fun s => s) "/missing.json"
      = .error (.fileNotFound "/missing.json") :=
  ⟨rfl, keystore_not_found (fun _ => none) (fun s => s) "/missing.json" rfl⟩

/-- C6: for every keystore file whose JSON object contains `privateKey`,
`_read_keystore` returns the pair `(privateKey, address)`, where `address`
is the object's `address` field when present and the literal `"unknown"`
when omitted. -/
theorem keystore_reader_returns_pair (fs : String → Option Json)
    (resolve : String → String) (path : String)
    (kvs : List (String × Json)) (pk : Json)
    (hfs : fs (resolve path) = some (.obj kvs))
    (hpk : lookupKey kvs "privateKey" = some pk) :
    _read_keystore fs resolve path
      = .ok (pk, (lookupKey kvs "address").getD (.str "unknown")) := by
  simp [_read_keystore, hfs, hpk]

theorem keystore_reader_returns_pair_witness :
    (fun p : String =>
        if p == "/ks.json" then
          some (Json.obj [("privateKey", .str "0xabc"), ("address", .str "0x123")])
        else none) ((fun s : String => s) "/ks.json")
      = some (Json.obj [("privateKey", .str "0xabc"), ("address", .str "0x123")]) ∧
    lookupKey [("privateKey", Json.str "0xabc"), ("address", Json.str "0x123")] "privateKey"
      = some (.str "0xabc") ∧
    _read_keystore
      (fun p => if p == "/ks.json" then
          some (Json.obj [("privateKey", .str "0xabc"), ("address", .str "0x123")])
        else none)
      (fun s => s) "/ks.json"
      = .ok (Json.str "0xabc",
          (lookupKey [("privateKey", Json.str "0xabc"), ("address", Json.str "0x123")]
            "address").getD (.str "unknown")) :=
  ⟨rfl, rfl,
    keystore_reader_returns_pair _ (fun s => s) "/ks.json" _ _ rfl rfl⟩

/-- C9: for every keystore file whose contents parse as JSON to a non-object
value, `_read_keystore` raises the `TypeError` of subscripting a non-dict,
which is not the `ValueError` used for a missing `privateKey` (only
`KeyError` is converted to `ValueError`). -/
theorem non_object_keystore_raises_type_error (fs : String → Option Json)
    (resolve : String → String) (path : String) (j : Json)
    (hfs : fs (resolve path) = some j) (hobj : isObj j = false) :
    _read_keystore fs resolve path = .error .typeError ∧
    ∀ p : String, KSErr.typeError ≠ KSErr.valueError p := by
  refine ⟨?_, fun p h => KSErr.noConfusion h⟩
  cases j with
  | obj kvs => simp [isObj] at hobj
  | arr l => simp [_read_keystore, hfs]
  | str s => simp [_read_keystore, hfs]
  | num n => simp [_read_keystore, hfs]
  | bool b => simp [_read_keystore, hfs]
  | null => simp [_read_keystore, hfs]

theorem non_object_keystore_raises_type_error_witness :
    (fun p : String => if p == "/arr.json" then some (Json.arr []) else none)
        ((fun s : String => s) "/arr.json") = some (Json.arr []) ∧
    isObj (Json.arr []) = false ∧
    (_read_keystore
        (fun p => if p == "/arr.json" then some (Json.arr []) else none)
        (fun s => s) "/arr.json" = .error .typeError ∧
      ∀ p : String, KSErr.typeError ≠ KSErr.valueError p) :=
  ⟨rfl, rfl,
    non_object_keystore_raises_type_error _ (fun s => s) "/arr.json" (Json.arr []) rfl rfl⟩

/-- C8: option registration declares `--node.environment` with default the
`ENVIRONMENT` environment variable if set, else the literal `"production"`,
and `--wallet.keystore` with default the `HOTKEY_KEYSTORE` environment
variable, with no fallback literal (`none` when the variable is absent). -/
theorem add_args_defaults (env : String → Option String) :
    add_args env =
      [ { name := "--node.environment",
          default := some (match env "ENVIRONMENT" with
            | some v => v
            | none => "production") },
        { name := "--wallet.keystore", default := env "HOTKEY_KEYSTORE" } ] := by
  cases h : env "ENVIRONMENT" <;> simp [add_args, h]

/-- C1: for every keystore file whose JSON object contains `privateKey`,
when a non-empty keystore path is configured, `default_config` sets the
configuration's private key to that value and clears (sets to `None`) any
pre-existing mnemonic — the keystore takes precedence even when a mnemonic
is also set. -/
theorem keystore_sets_key_clears_mnemonic (fs : String → Option Json)
    (resolve : String → String) (env : String → Option String) (home : String)
    (cfg0 : WalletCfg) (ks : String) (kvs : List (String × Json)) (pk : Json)
    (hks : cfg0.keystore = some ks) (hne : ks ≠ "")
    (hfs : fs (resolve ks) = some (.obj kvs))
    (hpk : lookupKey kvs "privateKey" = some pk) :
    (default_config fs resolve env home cfg0).cfg.private_key = some pk ∧
    (default_config fs resolve env home cfg0).cfg.mnemonic = none ∧
    (default_config fs resolve env home cfg0).err = none := by
  simp [default_config, truthy, hks, hne, _read_keystore, hfs, hpk,
    fillWalletDefaults]

theorem keystore_sets_key_clears_mnemonic_witness :
    (WalletCfg.mk (some "/ks.json") (some "seed words") none none none none).keystore
      = some "/ks.json" ∧
    "/ks.json" ≠ "" ∧
    (fun p : String =>
        if p == "/ks.json" then some (Json.obj [("privateKey", .str "0xabc")])
        else none) ((fun s : String => s) "/ks.json")
      = some (Json.obj [("privateKey", .str "0xabc")]) ∧
    lookupKey [("privateKey", Json.str "0xabc")] "privateKey" = some (.str "0xabc") ∧
    ((default_config
        (fun p => if p == "/ks.json" then some (Json.obj [("privateKey", .str "0xabc")])
          else none)
        (fun s => s) (fun _ => none) "/home/u"
        (WalletCfg.mk (some "/ks.json") (some "seed words") none none none none)).cfg.private_key
        = some (.str "0xabc") ∧
      (default_config
        (fun p => if p == "/ks.json" then some (Json.obj [("privateKey", .str "0xabc")])
          else none)
        (fun s => s) (fun _ => none) "/home/u"
        (WalletCfg.mk (some "/ks.json") (some "seed words") none none none none)).cfg.mnemonic
        = none ∧
      (default_config
        (fun p => if p == "/ks.json" then some (Json.obj [("privateKey", .str "0xabc")])
          else none)
        (fun s => s) (fun _ => none) "/home/u"
        (WalletCfg.mk (some "/ks.json") (some "seed words") none none none none)).err
        = none) :=
  ⟨rfl, by decide, rfl, rfl,
    keystore_sets_key_clears_mnemonic _ (fun s => s) (fun _ => none) "/home/u"
      _ "/ks.json" _ _ rfl (by decide) rfl rfl⟩

/-- C2: for every keystore file whose JSON parses to an object lacking
`privateKey`, `default_config` fails with the `ValueError` and the
configuration object is not mutated (no log is emitted either): the error
is raised before any assignment to the wallet fields. -/
theorem missing_private_key_fails_without_mutation (fs : String → Option Json)
    (resolve : String → String) (env : String → Option String) (home : String)
    (cfg0 : WalletCfg) (ks : String) (kvs : List (String × Json))
    (hks : cfg0.keystore = some ks) (hne : ks ≠ "")
    (hfs : fs (resolve ks) = some (.obj kvs))
    (hpk : lookupKey kvs "privateKey" = none) :
    (default_config fs resolve env home cfg0).err
      = some (.valueError (resolve ks)) ∧
    (default_config fs resolve env home cfg0).cfg = cfg0 ∧
    (default_config fs resolve env home cfg0).logs = [] := by
  simp [default_config, truthy, hks, hne, _read_keystore, hfs, hpk]

theorem missing_private_key_fails_without_mutation_witness :
    (WalletCfg.mk (some "/ks.json") none none none none none).keystore
      = some "/ks.json" ∧
    "/ks.json" ≠ "" ∧
    (fun p : String =>
        if p == "/ks.json" then some (Json.obj [("address", .str "0x123")])
        else none) ((fun s : String => s) "/ks.json")
      = some (Json.obj [("address", .str "0x123")]) ∧
    lookupKey [("address", Json.str "0x123")] "privateKey" = none ∧
    ((default_config
        (fun p => if p == "/ks.json" then some (Json.obj [("address", .str "0x123")])
          else none)
        (fun s => s) (fun _ => none) "/home/u"
        (WalletCfg.mk (some "/ks.json") none none none none none)).err
        = some (.valueError "/ks.json") ∧
      (default_config
        (fun p => if p == "/ks.json" then some (Json.obj [("address", .str "0x123")])
          else none)
        (fun s => s) (fun _ => none) "/home/u"
        (WalletCfg.mk (some "/ks.json") none none none none none)).cfg
        = WalletCfg.mk (some "/ks.json") none none none none none ∧
      (default_config
        (fun p => if p == "/ks.json" then some (Json.obj [("address", .str "0x123")])
          else none)
        (fun s => s) (fun _ => none) "/home/u"
        (WalletCfg.mk (some "/ks.json") none none none none none)).logs = []) :=
  ⟨rfl, by decide, rfl, rfl,
    missing_private_key_fails_without_mutation _ (fun s => s) (fun _ => none)
      "/home/u" _ "/ks.json" _ rfl (by decide) rfl rfl⟩

/-- C3: for every parsed configuration, exactly one of the three
wallet-resolution branches executes, in fixed order: the keystore branch iff
the keystore path is set and non-empty (truthy); otherwise the mnemonic
branch iff the mnemonic is truthy; otherwise the fallback branch. -/
theorem branch_selection (fs : String → Option Json)
    (resolve : String → String) (env : String → Option String) (home : String)
    (cfg0 : WalletCfg) :
    ((default_config fs resolve env home cfg0).branch = .keystore ↔
      truthy cfg0.keystore = true) ∧
    ((default_config fs resolve env home cfg0).branch = .mnemonic ↔
      (truthy cfg0.keystore = false ∧ truthy cfg0.mnemonic = true)) ∧
    ((default_config fs resolve env home cfg0).branch = .fallback ↔
      (truthy cfg0.keystore = false ∧ truthy cfg0.mnemonic = false)) := by
  cases hk : truthy cfg0.keystore with
  | false => cases hm : truthy cfg0.mnemonic <;> simp [default_config, hk, hm]
  | true =>
    cases hr : _read_keystore fs resolve (cfg0.keystore.getD "") with
    | error e => simp [default_config, hk, hr]
    | ok pa => cases pa with
      | mk priv addr => simp [default_config, hk, hr]

/-- C7: when neither a keystore path nor a mnemonic is set (truthy) after
parsing, the resolver leaves the credential fields (private key and
mnemonic) unchanged, and only the fallback log is emitted. -/
theorem neither_source_leaves_credentials (fs : String → Option Json)
    (resolve : String → String) (env : String → Option String) (home : String)
    (cfg0 : WalletCfg)
    (hk : truthy cfg0.keystore = false) (hm : truthy cfg0.mnemonic = false) :
    (default_config fs resolve env home cfg0).cfg.private_key
      = cfg0.private_key ∧
    (default_config fs resolve env home cfg0).cfg.mnemonic = cfg0.mnemonic ∧
    (default_config fs resolve env home cfg0).logs = [.fallbackDefault] ∧
    (default_config fs resolve env home cfg0).err = none := by
  simp [default_config, hk, hm, fillWalletDefaults]

theorem neither_source_leaves_credentials_witness :
    truthy (WalletCfg.mk none none none none none none).keystore = false ∧
    truthy (WalletCfg.mk none none none none none none).mnemonic = false ∧
    ((default_config (fun _ => none) (fun s => s) (fun _ => none) "/home/u"
        (WalletCfg.mk none none none none none none)).cfg.private_key = none ∧
      (default_config (fun _ => none) (fun s => s) (fun _ => none) "/home/u"
        (WalletCfg.mk none none none none none none)).cfg.mnemonic = none ∧
      (default_config (fun _ => none) (fun s => s) (fun _ => none) "/home/u"
        (WalletCfg.mk none none none none none none)).logs = [.fallbackDefault] ∧
      (default_config (fun _ => none) (fun s => s) (fun _ => none) "/home/u"
        (WalletCfg.mk none none none none none none)).err = none) :=
  ⟨rfl, rfl,
    neither_source_leaves_credentials (fun _ => none) (fun s => s)
      (fun _ => none) "/home/u" _ rfl rfl⟩

/-- C10: branch presence is decided by truthiness, so with no keystore path
set and the mnemonic equal to the empty string, the mnemonic is treated as
absent and the fallback branch executes rather than the mnemonic branch. -/
theorem empty_mnemonic_falls_back (fs : String → Option Json)
    (resolve : String → String) (env : String → Option String) (home : String)
    (cfg0 : WalletCfg)
    (hk : cfg0.keystore = none) (hm : cfg0.mnemonic = some "") :
    (default_config fs resolve env home cfg0).branch = .fallback ∧
    (default_config fs resolve env home cfg0).branch ≠ .mnemonic ∧
    (default_config fs resolve env home cfg0).logs = [.fallbackDefault] := by
  simp [default_config, truthy, hk, hm]

theorem empty_mnemonic_falls_back_witness :
    (WalletCfg.mk none (some "") none none none none).keystore = none ∧
    (WalletCfg.mk none (some "") none none none none).mnemonic = some "" ∧
    ((default_config (fun _ => none) (fun s => s) (fun _ => none) "/home/u"
        (WalletCfg.mk none (some "") none none none none)).branch = .fallback ∧
      (default_config (fun _ => none) (fun s => s) (fun _ => none) "/home/u"
        (WalletCfg.mk none (some "") none none none none)).branch ≠ .mnemonic ∧
      (default_config (fun _ => none) (fun s => s) (fun _ => none) "/home/u"
        (WalletCfg.mk none (some "") none none none none)).logs
        = [.fallbackDefault]) :=
  ⟨rfl, rfl,
    empty_mnemonic_falls_back (fun _ => none) (fun s => s) (fun _ => none)
      "/home/u" _ rfl rfl⟩

/-- C4 (counterexample): the filler's fallback for `wallet.path` is not the
literal `~/.vana/wallets/refiner` — the code applies `os.path.expanduser`
to it, so with home directory `/home/u` and `VANA_WALLET_PATH` unset the
resulting path is `/home/u/.vana/wallets/refiner`. -/
theorem wallet_path_default_not_literal :
    (default_config (fun _ => none) (fun s => s) (fun _ => none) "/home/u"
        (WalletCfg.mk none none none none none none)).cfg.path
      = some "/home/u/.vana/wallets/refiner" ∧
    (default_config (fun _ => none) (fun s => s) (fun _ => none) "/home/u"
        (WalletCfg.mk none none none none none none)).cfg.path
      ≠ some "~/.vana/wallets/refiner" := by
  constructor <;> decide

/-- C4 (amended): whenever `default_config` completes without an exception,
it has set `wallet.path`, `wallet.coldkey` and `wallet.hotkey`, overwriting
any pre-existing value: each takes its environment variable
(`VANA_WALLET_PATH`, `VANA_COLDKEY_NAME`, `VANA_HOTKEY_NAME`) when present,
else the defaults — the user-expansion of `~/.vana/wallets/refiner` (leading
`~` replaced by the home directory) for the path, and the literal `refiner`
for coldkey and hotkey. -/
theorem wallet_defaults_always_set (fs : String → Option Json)
    (resolve : String → String) (env : String → Option String) (home : String)
    (cfg0 : WalletCfg)
    (h : (default_config fs resolve env home cfg0).err = none) :
    (default_config fs resolve env home cfg0).cfg.path
      = some ((env "VANA_WALLET_PATH").getD
          (expanduser home "~/.vana/wallets/refiner")) ∧
    (default_config fs resolve env home cfg0).cfg.coldkey
      = some ((env "VANA_COLDKEY_NAME").getD "refiner") ∧
    (default_config fs resolve env home cfg0).cfg.hotkey
      = some ((env "VANA_HOTKEY_NAME").getD "refiner") := by
  cases hk : truthy cfg0.keystore with
  | false =>
    cases hm : truthy cfg0.mnemonic <;>
      simp [default_config, hk, hm, fillWalletDefaults]
  | true =>
    cases hr : _read_keystore fs resolve (cfg0.keystore.getD "") with
    | error e => simp [default_config, hk, hr] at h
    | ok pa => cases pa with
      | mk priv addr => simp [default_config, hk, hr, fillWalletDefaults]

theorem wallet_defaults_always_set_witness :
    (default_config (fun _ => none) (fun s => s) (fun _ => none) "/home/u"
        (WalletCfg.mk none none none (some "/old") (some "old") (some "old"))).err
      = none ∧
    ((default_config (fun _ => none) (fun s => s) (fun _ => none) "/home/u"
        (WalletCfg.mk none none none (some "/old") (some "old") (some "old"))).cfg.path
        = some (((fun _ : String => (none : Option String)) "VANA_WALLET_PATH").getD
            (expanduser "/home/u" "~/.vana/wallets/refiner")) ∧
      (default_config (fun _ => none) (fun s => s) (fun _ => none) "/home/u"
        (WalletCfg.mk none none none (some "/old") (some "old") (some "old"))).cfg.coldkey
        = some (((fun _ : String => (none : Option String)) "VANA_COLDKEY_NAME").getD "refiner") ∧
      (default_config (fun _ => none) (fun s => s) (fun _ => none) "/home/u"
        (WalletCfg.mk none none none (some "/old") (some "old") (some "old"))).cfg.hotkey
        = some (((fun _ : String => (none : Option String)) "VANA_HOTKEY_NAME").getD "refiner")) :=
  ⟨rfl,
    wallet_defaults_always_set (fun _ => none) (fun s => s) (fun _ => none)
      "/home/u" _ rfl⟩

end VanaRefiner
